import Mathlib

/-!
# Verification of the SublimeJEDI daemon (`jedi_daemon.py`)

Shallow embedding of the daemon's core: the request dispatcher
(`process_line`), the analysis facade (`JediFacade` and its four
operations), the completion formatter (`format_completion`), the
parameter extractor (`get_function_parameters`), the output writer
(`write`) and the daemon loop.

The jedi analysis engine is an external collaborator: it is modelled by
an `Engine` record that supplies the answers of the `jedi.Script`
session bound to one request (the call signature at the cursor, the
completion candidates, and the results of `goto_assignments` and
`usages`, the latter two possibly raising).

Python exceptions are modelled with an explicit error type threaded
through `Except`.  Machine-level details (I/O buffering, the rotating
log file, real stdin/stdout) are outside the embedding; the emitted
response line is the value returned by the modelled `process_line`.
-/

set_option autoImplicit false
set_option linter.unusedVariables false

/-- Python exception classes that the daemon code can raise.  All of them
derive from `Exception` (so the daemon loop's `except Exception` catches
them); `SystemExit` (raised by `sys.exit()`) does not and is modelled
separately in `LineOutcome`. -/
inductive PyError where
  | typeError
  | valueError
  | keyError
  | attributeError
  | assertionError
  | notFoundError
  | ioError
  deriving DecidableEq, Repr

/-- A JSON value, as produced by `json.loads` on one request line.
(`json.loads` itself is the Python standard library, an external
collaborator; the dispatcher is modelled from the parsed value on.)
Numbers are restricted to integers, which is all the protocol uses. -/
inductive JVal where
  | null
  | bool (b : Bool)
  | num (n : Int)
  | str (s : String)
  | arr (elems : List JVal)
  | obj (fields : List (String × JVal))

/-- `data.get(key, None)` on a parsed JSON object (first binding wins;
parsed Python dicts have distinct keys). -/
def jsonGet (data : List (String × JVal)) (key : String) : Option JVal :=
  (data.find? (fun kv => kv.fst == key)).map (fun kv => kv.snd)

/-- Python truthiness of a JSON value (`assert action_type`). -/
def jvalTruthy : JVal → Bool
  | JVal.null => false
  | JVal.bool b => b
  | JVal.num n => !(n == 0)
  | JVal.str s => !s.isEmpty
  | JVal.arr elems => !elems.isEmpty
  | JVal.obj fields => !fields.isEmpty

/-- One completion candidate from the engine (`jedi.api_classes.Completion`);
the Python attribute `type` is spelled `ctype` because `type` is a Lean
keyword. -/
structure Completion where
  name : String
  ctype : String
  deriving DecidableEq, Repr

/-- The active call signature (`jedi.api_classes.CallDef`): each parameter
is represented by the string `param.get_code()` returns. -/
structure CallDef where
  params : List String
  deriving DecidableEq, Repr

/-- One definition/usage site from the engine; `in_builtin_module` records
the result of `i.in_builtin_module()`. -/
structure JediDefinition where
  module_path : String
  line : Int
  column : Int
  in_builtin_module : Bool
  deriving DecidableEq, Repr

/-- The analysis-engine session the facade holds (`self.script`): the
answers jedi gives for the (source, line, offset, filename, encoding)
tuple of one request.  `goto_assignments` and `usages` may raise (for
example jedi's `NotFoundError`), hence `Except`. -/
structure Engine where
  callSignature : Option CallDef
  completions : List Completion
  gotoAssignments : Except PyError (List JediDefinition)
  usages : Except PyError (List JediDefinition)

/-- `format_completion`: `(complete.name + '\t' + complete.type, complete.name)`. -/
def format_completion (complete : Completion) : String × String :=
  (complete.name ++ "\t" ++ complete.ctype, complete.name)

/-- The whitespace characters Python's `str.strip()` removes. -/
def isPySpace (c : Char) : Bool :=
  c == ' ' || c == '\t' || c == '\n' || c == '\r' || c == '\x0b' || c == '\x0c'

/-- Python's `str.strip()`: drop leading and trailing whitespace. -/
def pyStrip (s : String) : String :=
  String.mk (((s.data.dropWhile isPySpace).reverse.dropWhile isPySpace).reverse)

/-- Helper for `pySplit`: split a character list on a separator,
accumulating the current piece in reverse. -/
def pySplitAux (sep : Char) : List Char → List Char → List (List Char)
  | [], acc => [acc.reverse]
  | c :: cs, acc =>
    if c == sep then acc.reverse :: pySplitAux sep cs []
    else pySplitAux sep cs (c :: acc)

/-- Python's `str.split(sep)` for a one-character separator: every
occurrence splits, and `''.split(sep) == ['']`. -/
def pySplit (sep : Char) (s : String) : List String :=
  (pySplitAux sep s.data []).map String.mk

/-- `get_function_parameters`: strip each parameter's code, skip `self`
and any parameter containing `*`, and split the rest on `=` (stripping
each piece).  A falsy `callDef` (no active signature) yields `[]`.
Note the function returns the raw `split('=')` lists: a parameter with
no default yields a one-element list, not a `(name, None)` pair. -/
def get_function_parameters (callDef : Option CallDef) : List (List String) :=
  match callDef with
  | none => []
  | some cd =>
    cd.params.filterMap (fun param =>
      let cleaned_param := pyStrip param
      if cleaned_param.data.any (fun c => c == '*') || cleaned_param == "self" then none
      else some ((pySplit '=' cleaned_param).map pyStrip))

/-- The `try: name, value = parameter / except IndexError: ...` block used
by `_parameters_for_completion` and `_complete_call_assigments`.
Sequence unpacking of a list whose length is not 2 raises `ValueError`
in Python, which `except IndexError` does not catch, so the handler
(`name = parameter[0]; value = None`) is dead code and the error
propagates. -/
def unpackParameter (parameter : List String) : Except PyError (String × Option String) :=
  match parameter with
  | [name, value] => Except.ok (name, some value)
  | _ => Except.error PyError.valueError

/-- Body of the `for parameter in parameters` loop of
`_parameters_for_completion`, building the completion pairs in order.
The `value is None` branch is unreachable (see `unpackParameter`) but is
kept to mirror the source. -/
def parametersForCompletionLoop : List (List String) → Except PyError (List (String × String))
  | [] => Except.ok []
  | parameter :: rest =>
    match unpackParameter parameter with
    | Except.error e => Except.error e
    | Except.ok (name, value) =>
      match parametersForCompletionLoop rest with
      | Except.error e => Except.error e
      | Except.ok others =>
        Except.ok
          ((match value with
            | none => (name, "$\x7b1:" ++ name ++ "\x7d")
            | some v => (name ++ "\t" ++ v, name ++ "=$\x7b1:" ++ v ++ "\x7d")) :: others)

/-- `JediFacade._parameters_for_completion`. -/
def parametersForCompletion (callSignature : Option CallDef) :
    Except PyError (List (String × String)) :=
  parametersForCompletionLoop (get_function_parameters callSignature)

/-- Body of the `for index, parameter in enumerate(parameters)` loop of
`_complete_call_assigments`; `index` is the 0-based enumeration index
and the emitted placeholder uses `index + 1`. -/
def completeCallAssigmentsLoop (complete_all : Bool) :
    Nat → List (List String) → Except PyError (List String)
  | _, [] => Except.ok []
  | index, parameter :: rest =>
    match unpackParameter parameter with
    | Except.error e => Except.error e
    | Except.ok (name, value) =>
      match completeCallAssigmentsLoop complete_all (index + 1) rest with
      | Except.error e => Except.error e
      | Except.ok others =>
        match value with
        | none =>
          Except.ok (("$\x7b" ++ toString (index + 1) ++ ":" ++ name ++ "\x7d") :: others)
        | some v =>
          if complete_all then
            Except.ok ((name ++ "=$\x7b" ++ toString (index + 1) ++ ":" ++ v ++ "\x7d") :: others)
          else
            Except.ok others

/-- `JediFacade._complete_call_assigments`: the first argument is the
process-wide toggle `auto_complete_function_params`. -/
def completeCallAssigments (auto_complete_function_params : String)
    (callSignature : Option CallDef) : Except PyError String :=
  match completeCallAssigmentsLoop (auto_complete_function_params == "all") 0
      (get_function_parameters callSignature) with
  | Except.error e => Except.error e
  | Except.ok completions => Except.ok (String.intercalate ", " completions)

/-- `JediFacade._completion`: the regular symbol completions. -/
def regularCompletion (e : Engine) : List (String × String) :=
  e.completions.map format_completion

/-- `JediFacade.get_autocomplete`: `data = self._parameters_for_completion() or []`
(`or []` is the identity on lists) followed by
`data.extend(self._completion() or [])`. -/
def get_autocomplete (e : Engine) : Except PyError (List (String × String)) :=
  match parametersForCompletion e.callSignature with
  | Except.error err => Except.error err
  | Except.ok data => Except.ok (data ++ regularCompletion e)

/-- `JediFacade.get_goto` / `_goto`: `goto_assignments` under a
`try/except NotFoundError` that turns "not found" into a bare `return`
(`none`); other errors propagate. -/
def get_goto (e : Engine) : Except PyError (Option (List (String × Int × Int))) :=
  match e.gotoAssignments with
  | Except.error PyError.notFoundError => Except.ok none
  | Except.error err => Except.error err
  | Except.ok definitions =>
    Except.ok (some ((definitions.filter (fun i => !i.in_builtin_module)).map
      (fun i => (i.module_path, i.line, i.column))))

/-- `JediFacade.get_usages` / `_usages`: no `try/except`, every engine
error (including `NotFoundError`) propagates. -/
def get_usages (e : Engine) : Except PyError (List (String × Int × Int)) :=
  match e.usages with
  | Except.error err => Except.error err
  | Except.ok usages =>
    Except.ok ((usages.filter (fun i => !i.in_builtin_module)).map
      (fun i => (i.module_path, i.line, i.column)))

/-- `JediFacade.get_funcargs`. -/
def get_funcargs (auto_complete_function_params : String) (e : Engine) :
    Except PyError String :=
  completeCallAssigments auto_complete_function_params e.callSignature

/-- A decimal digit character; only called with `d < 10`. -/
def digitChar (d : Nat) : Char := Char.ofNat (48 + d % 10)

/-- Digits of a natural number, most significant first, with a fuel
argument (`fuel = n + 1` always suffices since the argument shrinks by a
factor of ten each step). -/
def natDigitsAux : Nat → Nat → List Char
  | 0, _ => []
  | fuel + 1, n =>
    if n < 10 then [digitChar n]
    else natDigitsAux fuel (n / 10) ++ [digitChar (n % 10)]

/-- The decimal digits of a natural number, most significant first
(model of how `json.dumps` renders an integer). -/
def natDigits (n : Nat) : List Char :=
  natDigitsAux (n + 1) n

/-- Decimal rendering of an integer. -/
def intRepr (n : Int) : String :=
  if n < 0 then String.mk ('-' :: natDigits n.natAbs)
  else String.mk (natDigits n.toNat)

/-- JSON string escaping (model of the standard library's; the exact
escape table is irrelevant to the claims, only that the result is
quote-delimited). -/
def escapeJChar (c : Char) : List Char :=
  if c = '"' then ['\\', '"']
  else if c = '\\' then ['\\', '\\']
  else if c = '\n' then ['\\', 'n']
  else if c = '\t' then ['\\', 't']
  else if c = '\r' then ['\\', 'r']
  else [c]

/-- JSON rendering of a string, quote-delimited. -/
def dumpsString (s : String) : String :=
  String.mk ('"' :: (s.data.map escapeJChar).flatten ++ ['"'])

mutual

/-- `json.dumps` with its default separators, modelled for `JVal`
(the standard library serializer is an external collaborator). -/
def dumpsJVal : JVal → String
  | JVal.null => "null"
  | JVal.bool true => "true"
  | JVal.bool false => "false"
  | JVal.num n => intRepr n
  | JVal.str s => dumpsString s
  | JVal.arr elems => "[" ++ dumpsElems elems ++ "]"
  | JVal.obj fields => "\x7b" ++ dumpsFields fields ++ "\x7d"

/-- Comma-joined array elements. -/
def dumpsElems : List JVal → String
  | [] => ""
  | [v] => dumpsJVal v
  | v :: vs => dumpsJVal v ++ ", " ++ dumpsElems vs

/-- Comma-joined object entries. -/
def dumpsFields : List (String × JVal) → String
  | [] => ""
  | [kv] => dumpsString kv.fst ++ ": " ++ dumpsJVal kv.snd
  | kv :: fs => dumpsString kv.fst ++ ": " ++ dumpsJVal kv.snd ++ ", " ++ dumpsFields fs

end

/-- Python's `data.endswith('\n')`: the last character is a newline. -/
def pyEndsWithNewline (s : String) : Bool :=
  s.data.getLast? == some '\n'

/-- Number of consecutive `'\n'` characters at the end of a string. -/
def countTrailingNewlines (s : String) : Nat :=
  (s.data.reverse.takeWhile (fun c => c == '\n')).length

/-- The two kinds of value `write` accepts: a pre-serialized string, or a
structured (JSON-serializable) value. -/
inductive WData where
  | str (s : String)
  | obj (v : JVal)

/-- The string `write` has in hand after the
`if not isinstance(data, str): data = json.dumps(data)` step. -/
def writeData : WData → String
  | WData.str s => s
  | WData.obj v => dumpsJVal v

/-- The full line `write` emits on stdout: the data followed by `'\n'`
unless the data already ends with one.  (The subsequent flush, and
`sys.exit()` when the consumer closed the pipe, concern the external
stream and are modelled at the daemon-loop level.) -/
def writeEmit (d : WData) : String :=
  if pyEndsWithNewline (writeData d) then writeData d else writeData d ++ "\n"

/-- The four methods `getattr(self, 'get_' + action)` can resolve to.
`JediFacade.get` returns the *bound method itself* (the call parentheses
are missing in the source), so this value — not the analysis result —
is what ends up in `out_data`. -/
inductive BoundMethod where
  | get_goto
  | get_usages
  | get_funcargs
  | get_autocomplete
  deriving DecidableEq, Repr

/-- `JediFacade.get`: `getattr(self, 'get_' + action)`.  A non-string
action makes `'get_' + action` raise `TypeError`; an unrecognized name
makes `getattr` raise `AttributeError`.  The method is returned without
being invoked. -/
def facadeGet (action : JVal) : Except PyError BoundMethod :=
  match action with
  | JVal.str s =>
    if s = "goto" then Except.ok BoundMethod.get_goto
    else if s = "usages" then Except.ok BoundMethod.get_usages
    else if s = "funcargs" then Except.ok BoundMethod.get_funcargs
    else if s = "autocomplete" then Except.ok BoundMethod.get_autocomplete
    else Except.error PyError.attributeError
  | _ => Except.error PyError.typeError

/-- Python's `int(x)` on a JSON value (used on `line` and `offset`). -/
def pyInt : JVal → Except PyError Int
  | JVal.num n => Except.ok n
  | JVal.bool b => Except.ok (if b then 1 else 0)
  | JVal.str s =>
    match (pyStrip s).toInt? with
    | some n => Except.ok n
    | none => Except.error PyError.valueError
  | _ => Except.error PyError.typeError

/-- The keyword parameters `JediFacade.__init__` accepts. -/
def facadeParamNames : List String := ["source", "line", "offset", "filename", "encoding"]

/-- The call `JediFacade(**data)`: keyword binding raises `TypeError` on
any key outside the constructor's parameter list (in particular the
`type` and `uuid` keys every request carries) and on a missing required
parameter; then the body runs `int(line)` and `int(offset)`.  The
constructed `jedi.Script` session itself is the external `Engine`. -/
def jediFacadeInit (data : List (String × JVal)) : Except PyError Unit :=
  if data.any (fun kv => !(facadeParamNames.contains kv.fst)) then
    Except.error PyError.typeError
  else
    match jsonGet data "source", jsonGet data "line", jsonGet data "offset" with
    | some _, some l, some o =>
      (match pyInt l with
       | Except.error e => Except.error e
       | Except.ok _ =>
         match pyInt o with
         | Except.error e => Except.error e
         | Except.ok _ => Except.ok ())
    | _, _, _ => Except.error PyError.typeError

/-- A value of the `out_data` dict: either a JSON value or the bound
method `JediFacade.get` returned. -/
inductive OutVal where
  | j (v : JVal)
  | method (m : BoundMethod)

/-- `json.dumps` on one `out_data` value: a bound method is not JSON
serializable and raises `TypeError`. -/
def dumpsOutVal : OutVal → Except PyError String
  | OutVal.j v => Except.ok (dumpsJVal v)
  | OutVal.method _ => Except.error PyError.typeError

/-- `json.dumps` on the entries of `out_data`. -/
def dumpsOutFields : List (String × OutVal) → Except PyError (List String)
  | [] => Except.ok []
  | (k, v) :: rest =>
    match dumpsOutVal v with
    | Except.error e => Except.error e
    | Except.ok sv =>
      match dumpsOutFields rest with
      | Except.error e => Except.error e
      | Except.ok others => Except.ok ((dumpsString k ++ ": " ++ sv) :: others)

/-- `json.dumps(out_data)`. -/
def dumpsOutData (fields : List (String × OutVal)) : Except PyError String :=
  match dumpsOutFields fields with
  | Except.error e => Except.error e
  | Except.ok parts => Except.ok ("\x7b" ++ String.intercalate ", " parts ++ "\x7d")

/-- `write(out_data)` inside `process_line`: serialize (which can raise,
emitting nothing), then emit with the trailing-newline rule. -/
def writeOut (fields : List (String × OutVal)) : Except PyError String :=
  match dumpsOutData fields with
  | Except.error e => Except.error e
  | Except.ok s => Except.ok (if pyEndsWithNewline s then s else s ++ "\n")

/-- `process_line`, from the parsed request object on (`json.loads` and
`line.strip()` are the external parsing step).  The `engine` argument is
the jedi session the facade would consult; it is never reached because
`JediFacade.get` returns the method uninvoked and `JediFacade(**data)`
itself rejects the `type`/`uuid` keywords.  The `Except.ok` value is the
response line written to stdout; an `Except.error` means the exception
escaped to the daemon loop with nothing emitted. -/
def process_line (engine : Engine) (data : List (String × JVal)) :
    Except PyError String :=
  let action_type := (jsonGet data "type").getD JVal.null
  if jvalTruthy action_type = false then Except.error PyError.assertionError
  else
    match jsonGet data "uuid" with
    | none => Except.error PyError.keyError
    | some uuid =>
      match jediFacadeInit data with
      | Except.error e => Except.error e
      | Except.ok _ =>
        match facadeGet action_type with
        | Except.error e => Except.error e
        | Except.ok meth =>
          let actionKey := match action_type with | JVal.str s => s | _ => ""
          writeOut
            [("uuid", OutVal.j uuid), ("type", OutVal.j action_type),
             (actionKey, OutVal.method meth)]

/-- The response lines a `process_line` outcome put on stdout. -/
def emittedLines (r : Except PyError String) : List String :=
  match r with
  | Except.ok s => [s]
  | Except.error _ => []

/-- Outcome of handling one input line: a normal return (with the lines
it emitted), an exception deriving `Exception`, or `SystemExit` (from
`sys.exit()` in `write`, which `except Exception` does not catch). -/
inductive LineOutcome where
  | ok (emitted : List String)
  | exc (e : PyError)
  | systemExit
  deriving DecidableEq, Repr

/-- The daemon loop `for line in iter(sys.stdin.readline, '')`, with the
per-line `try/except Exception`.  `step` is the handling of one line
(`process_line` plus the external parse); the returned list records, in
order, each line that was processed together with its outcome.  The
empty string is `iter`'s sentinel (end of stream); a `SystemExit`
outcome escapes the `except Exception` clause and ends the loop. -/
def runDaemon (step : String → LineOutcome) : List String → List (String × LineOutcome)
  | [] => []
  | l :: rest =>
    if l = "" then []
    else
      match step l with
      | LineOutcome.systemExit => [(l, LineOutcome.systemExit)]
      | LineOutcome.ok out => (l, LineOutcome.ok out) :: runDaemon step rest
      | LineOutcome.exc e => (l, LineOutcome.exc e) :: runDaemon step rest

/-- The parsed request of the end-to-end example:
`{"type":"autocomplete","uuid":"1","source":"import os\nos.","line":2,"offset":3,"filename":"","encoding":"utf-8"}`. -/
def c1data : List (String × JVal) :=
  [("type", JVal.str "autocomplete"), ("uuid", JVal.str "1"),
   ("source", JVal.str "import os\nos."), ("line", JVal.num 2),
   ("offset", JVal.num 3), ("filename", JVal.str ""), ("encoding", JVal.str "utf-8")]

/-- The engine of the end-to-end example: no active call signature, one
completion named `path` of kind `module`. -/
def c1engine : Engine :=
  ⟨none, [⟨"path", "module"⟩], Except.ok [], Except.ok []⟩

/-- A concrete per-line handler for the daemon-loop witness: line `"a"`
fails, every other line succeeds emitting nothing. -/
def c2step : String → LineOutcome :=
  fun l => if l = "a" then LineOutcome.exc PyError.valueError else LineOutcome.ok []

/-- An engine whose active call signature is `(a, b=5)`. -/
def c3engine : Engine :=
  ⟨some ⟨["a", "b=5"]⟩, [], Except.ok [], Except.ok []⟩

/-- The signature `(a, b=5, *args, self, **kwargs)` as the engine
reports it, one `param.get_code()` string per parameter. -/
def c4sig : CallDef := ⟨["a", "b=5", "*args", "self", "**kwargs"]⟩

/-- An engine whose active signature `(a)` has a parameter without a
default, and which reports no completions. -/
def c5failEngine : Engine :=
  ⟨some ⟨["a"]⟩, [], Except.ok [], Except.ok []⟩

/-- An engine with no active signature and no completions. -/
def c5emptyEngine : Engine :=
  ⟨none, [], Except.ok [], Except.ok []⟩

/-- An engine whose `goto_assignments` raises `NotFoundError`. -/
def c6engine : Engine :=
  ⟨none, [], Except.error PyError.notFoundError, Except.ok []⟩

/-- An engine whose `usages` raises `NotFoundError`. -/
def c7engine : Engine :=
  ⟨none, [], Except.ok [], Except.error PyError.notFoundError⟩

/-- A parsed request with a `uuid` but no `type` field. -/
def c8data : List (String × JVal) := [("uuid", JVal.str "1")]

/-- An arbitrary engine for the missing-`type` witness. -/
def c8engine : Engine :=
  ⟨none, [], Except.ok [], Except.ok []⟩

/-- The one-parameter signature `(a)`. -/
def c10cd : CallDef := ⟨["a"]⟩

/-- An engine whose active call signature is `(a)`. -/
def c10engine : Engine :=
  ⟨some c10cd, [], Except.ok [], Except.ok []⟩

theorem runDaemon_head (step : String → LineOutcome) (l : String) (rest : List String)
    (h : l ≠ "") : (runDaemon step (l :: rest))[0]? = some (l, step l) := by
  unfold runDaemon
  rw [if_neg h]
  cases hstep : step l <;> simp [hstep]

theorem runDaemon_continue (step : String → LineOutcome) (lines : List String)
    (n : Nat) (l l' : String) (e : PyError)
    (hn : (runDaemon step lines)[n]? = some (l, LineOutcome.exc e))
    (hnext : lines[n + 1]? = some l') (hne : l' ≠ "") :
    (runDaemon step lines)[n + 1]? = some (l', step l') := by
  induction lines generalizing n with
  | nil => simp [runDaemon] at hn
  | cons x rest ih =>
    by_cases hx : x = ""
    · rw [hx] at hn; simp [runDaemon] at hn
    · rw [runDaemon, if_neg hx] at hn ⊢
      cases hstep : step x with
      | systemExit =>
        rw [hstep] at hn
        cases n with
        | zero => simp at hn
        | succ m => simp at hn
      | ok out =>
        rw [hstep] at hn
        cases n with
        | zero => simp at hn
        | succ m =>
          simp only [List.getElem?_cons_succ] at hn ⊢
          exact ih m hn (by simpa using hnext)
      | exc e0 =>
        rw [hstep] at hn
        cases n with
        | zero =>
          simp only [List.getElem?_cons_succ]
          have hr : rest[0]? = some l' := by simpa using hnext
          cases rest with
          | nil => simp at hr
          | cons y t =>
            simp only [List.getElem?_cons_zero, Option.some.injEq] at hr
            subst hr
            exact runDaemon_head step y t hne
        | succ m =>
          simp only [List.getElem?_cons_succ] at hn ⊢
          exact ih m hn (by simpa using hnext)

theorem unpackParameter_shape (parameter : List String) :
    unpackParameter parameter = Except.error PyError.valueError
    ∨ ∃ a b, unpackParameter parameter = Except.ok (a, some b) := by
  match parameter with
  | [] => exact Or.inl rfl
  | [a] => exact Or.inl rfl
  | [a, b] => exact Or.inr ⟨a, b, rfl⟩
  | a :: b :: c :: t => exact Or.inl rfl

theorem parametersForCompletionLoop_error (ps : List (List String))
    (h : ∃ q ∈ ps, unpackParameter q = Except.error PyError.valueError) :
    parametersForCompletionLoop ps = Except.error PyError.valueError := by
  induction ps with
  | nil => simp at h
  | cons q rest ih =>
    obtain ⟨q0, hmem, hq0⟩ := h
    rw [List.mem_cons] at hmem
    rcases hmem with rfl | hmem
    · rw [parametersForCompletionLoop, hq0]
    · rcases unpackParameter_shape q with hq | ⟨a, b, hq⟩
      · rw [parametersForCompletionLoop, hq]
      · rw [parametersForCompletionLoop, hq, ih ⟨q0, hmem, hq0⟩]

theorem completeCallAssigmentsLoop_error (complete_all : Bool) (index : Nat)
    (ps : List (List String))
    (h : ∃ q ∈ ps, unpackParameter q = Except.error PyError.valueError) :
    completeCallAssigmentsLoop complete_all index ps = Except.error PyError.valueError := by
  induction ps generalizing index with
  | nil => simp at h
  | cons q rest ih =>
    obtain ⟨q0, hmem, hq0⟩ := h
    rw [List.mem_cons] at hmem
    rcases hmem with rfl | hmem
    · rw [completeCallAssigmentsLoop, hq0]
    · rcases unpackParameter_shape q with hq | ⟨a, b, hq⟩
      · rw [completeCallAssigmentsLoop, hq]
      · rw [completeCallAssigmentsLoop, hq, ih (index + 1) ⟨q0, hmem, hq0⟩]

theorem digitChar_ne_newline (d : Nat) : (digitChar d == '\n') = false := by
  unfold digitChar
  have h : d % 10 < 10 := Nat.mod_lt _ (by omega)
  set r := d % 10 with hr
  interval_cases r <;> decide

theorem natDigits_getLast (n : Nat) :
    ∃ k, (natDigits n).getLast? = some (digitChar k) := by
  unfold natDigits natDigitsAux
  by_cases h : n < 10
  · rw [if_pos h]; exact ⟨n, rfl⟩
  · rw [if_neg h]; exact ⟨n % 10, List.getLast?_concat _⟩

theorem natDigits_ne_nil (n : Nat) : natDigits n ≠ [] := by
  unfold natDigits natDigitsAux
  by_cases h : n < 10
  · rw [if_pos h]; simp
  · rw [if_neg h]; simp

theorem getLast?_cons_ne_nil {α : Type} (a : α) (l : List α) (h : l ≠ []) :
    (a :: l).getLast? = l.getLast? := by
  cases l with
  | nil => exact absurd rfl h
  | cons b t => exact List.getLast?_cons_cons

theorem pyEndsWithNewline_intRepr (n : Int) : pyEndsWithNewline (intRepr n) = false := by
  unfold intRepr pyEndsWithNewline
  split
  · show ((('-' :: natDigits n.natAbs).getLast?) == some '\n') = false
    obtain ⟨k, hk⟩ := natDigits_getLast n.natAbs
    rw [getLast?_cons_ne_nil _ _ (natDigits_ne_nil _), hk]
    simpa using digitChar_ne_newline k
  · show (((natDigits n.toNat).getLast?) == some '\n') = false
    obtain ⟨k, hk⟩ := natDigits_getLast n.toNat
    rw [hk]
    simpa using digitChar_ne_newline k

theorem pyEndsWithNewline_dumpsString (s : String) :
    pyEndsWithNewline (dumpsString s) = false := by
  unfold pyEndsWithNewline dumpsString
  show ((('"' :: ((s.data.map escapeJChar).flatten ++ ['"'])).getLast?) == some '\n') = false
  rw [← List.cons_append, List.getLast?_concat]
  decide

theorem pyEndsWithNewline_dumpsJVal (v : JVal) :
    pyEndsWithNewline (dumpsJVal v) = false := by
  cases v with
  | null => decide
  | bool b => cases b <;> decide
  | num n => exact pyEndsWithNewline_intRepr n
  | str s => exact pyEndsWithNewline_dumpsString s
  | arr elems =>
    unfold pyEndsWithNewline
    rw [dumpsJVal]
    rw [String.data_append]
    rw [show ("]" : String).data = [']'] from rfl, List.getLast?_concat]
    decide
  | obj fields =>
    unfold pyEndsWithNewline
    rw [dumpsJVal]
    rw [String.data_append]
    rw [show ("\x7d" : String).data = ['\x7d'] from rfl, List.getLast?_concat]
    decide

theorem countTrailingNewlines_append_newline (s : String)
    (h : pyEndsWithNewline s = false) :
    countTrailingNewlines (s ++ "\n") = 1 := by
  unfold countTrailingNewlines
  rw [String.data_append, show ("\n" : String).data = ['\n'] from rfl]
  rw [List.reverse_append]
  show ((['\n'] ++ s.data.reverse).takeWhile (fun c => c == '\n')).length = 1
  rw [List.singleton_append, List.takeWhile_cons]
  simp only [beq_self_eq_true, if_true]
  unfold pyEndsWithNewline at h
  cases hrev : s.data.reverse with
  | nil => simp
  | cons c t =>
    have hc : s.data.getLast? = some c := by
      rw [← List.head?_reverse, hrev]; rfl
    rw [hc] at h
    have hcne : (c == '\n') = false := by
      cases hcc : c == '\n'
      · rfl
      · rw [eq_of_beq hcc] at h; simp at h
    rw [List.takeWhile_cons, hcne]
    simp

theorem one_le_countTrailingNewlines (s : String)
    (h : pyEndsWithNewline s = true) :
    1 ≤ countTrailingNewlines s := by
  unfold countTrailingNewlines
  unfold pyEndsWithNewline at h
  cases hrev : s.data.reverse with
  | nil =>
    exfalso
    have : s.data.getLast? = none := by rw [← List.head?_reverse, hrev]; rfl
    rw [this] at h; simp at h
  | cons c t =>
    have hc : s.data.getLast? = some c := by
      rw [← List.head?_reverse, hrev]; rfl
    rw [hc] at h
    have : (c == '\n') = true := by simpa using h
    rw [List.takeWhile_cons, this]
    simp

/-- Claim C1: the spec's end-to-end example says this autocomplete request
produces the response
`{"uuid":"1","type":"autocomplete","autocomplete":[["path\tmodule","path"]]}`.
The code instead raises `TypeError`: `JediFacade(**data)` receives the
unexpected keyword arguments `type` and `uuid` (and even past that,
`JediFacade.get` returns the bound method uninvoked, which `json.dumps`
cannot serialize), so no response line is emitted. -/
theorem process_line_autocomplete_request :
    process_line c1engine c1data = Except.error PyError.typeError
    ∧ emittedLines (process_line c1engine c1data) = [] :=
  ⟨rfl, rfl⟩

/-- Claim C2: an exception from handling line `n` (any `Exception`, as
opposed to the fatal `SystemExit`) never prevents line `n + 1` from
being read and processed: the loop records line `n + 1` with its own
outcome. -/
theorem daemon_loop_isolates_failures (step : String → LineOutcome)
    (lines : List String) (n : Nat) (l l' : String) (e : PyError)
    (hn : (runDaemon step lines)[n]? = some (l, LineOutcome.exc e))
    (hnext : lines[n + 1]? = some l') (hne : l' ≠ "") :
    (runDaemon step lines)[n + 1]? = some (l', step l') :=
  runDaemon_continue step lines n l l' e hn hnext hne

/-- Witness for C2 at a concrete trace: line `"a"` fails with
`ValueError`, line `"b"` is still processed. -/
theorem daemon_loop_isolates_failures_witness :
    (runDaemon c2step ["a", "b"])[1]? = some ("b", c2step "b") :=
  daemon_loop_isolates_failures c2step ["a", "b"] 0 "a" "b" PyError.valueError rfl rfl
    (by decide)

/-- Claim C3: the spec says funcargs on signature `(a, b=5)` yields
`"${1:a}"` under toggle `"required"`, `"${1:a}, b=${2:5}"` under `"all"`
and `""` under `""`.  The code instead raises `ValueError` under every
toggle: the parameter `a` extracts to the one-element list `["a"]` and
the two-element unpacking fails (the `except IndexError` handler does
not catch `ValueError`). -/
theorem funcargs_raises_on_signature_a_b5 :
    get_funcargs "required" c3engine = Except.error PyError.valueError
    ∧ get_funcargs "all" c3engine = Except.error PyError.valueError
    ∧ get_funcargs "" c3engine = Except.error PyError.valueError :=
  ⟨rfl, rfl, rfl⟩

/-- Claim C4: the spec says extraction from `(a, b=5, *args, self, **kwargs)`
returns `[("a", None), ("b", "5")]`.  The code does exclude `self` and
the starred parameters and preserves order, but the no-default parameter
comes back as the one-element list `["a"]`, not a `(name, None)` pair
(contradicting the function's own docstring `list of (str, str or None)`). -/
theorem parameter_extractor_on_mixed_signature :
    get_function_parameters (some c4sig) = [["a"], ["b", "5"]] :=
  rfl

/-- Counterexample to C5: with active signature `(a)` (a parameter
without a default) and no completions, autocomplete raises `ValueError`
instead of returning the claimed concatenation. -/
theorem autocomplete_totality_counterexample :
    get_autocomplete c5failEngine = Except.error PyError.valueError
    ∧ get_autocomplete c5failEngine ≠ Except.ok [("a", "$\x7b1:a\x7d")] :=
  ⟨rfl, fun h => nomatch h⟩

/-- Claim C5 (amended): whenever deriving the parameter completions
succeeds — in particular whenever no call signature is active —
autocomplete returns the parameter completions followed by the formatted
symbol completions, each group in engine order; and with no signature and
no completions it returns the empty sequence, never a failure. -/
theorem get_autocomplete_concatenation (e : Engine) :
    (∀ ps, parametersForCompletion e.callSignature = Except.ok ps →
      get_autocomplete e = Except.ok (ps ++ regularCompletion e))
    ∧ (e.callSignature = none → e.completions = [] →
      get_autocomplete e = Except.ok []) := by
  constructor
  · intro ps h
    unfold get_autocomplete
    rw [h]
  · intro h1 h2
    unfold get_autocomplete regularCompletion
    rw [h1, h2]
    rfl

/-- Witness for C5 at a concrete engine with no signature and no
completions. -/
theorem get_autocomplete_concatenation_witness :
    get_autocomplete c5emptyEngine = Except.ok [] :=
  (get_autocomplete_concatenation c5emptyEngine).2 rfl rfl

/-- Claim C6: when the engine's `goto_assignments` raises
`NotFoundError`, goto returns `None` (no exception escapes, so the
daemon loop logs nothing for it). -/
theorem goto_not_found_returns_none (e : Engine)
    (h : e.gotoAssignments = Except.error PyError.notFoundError) :
    get_goto e = Except.ok none := by
  unfold get_goto
  rw [h]

/-- Witness for C6 at a concrete engine. -/
theorem goto_not_found_returns_none_witness : get_goto c6engine = Except.ok none :=
  goto_not_found_returns_none c6engine rfl

/-- Claim C7: when the engine's `usages` raises `NotFoundError`, the
usages operation does not catch it — the exception propagates out of the
operation, preserving the asymmetry with goto. -/
theorem usages_not_found_propagates (e : Engine)
    (h : e.usages = Except.error PyError.notFoundError) :
    get_usages e = Except.error PyError.notFoundError := by
  unfold get_usages
  rw [h]

/-- Witness for C7 at a concrete engine. -/
theorem usages_not_found_propagates_witness :
    get_usages c7engine = Except.error PyError.notFoundError :=
  usages_not_found_propagates c7engine rfl

/-- Claim C8: a parsed request whose `type` field is absent or falsy
makes `process_line` fail its assertion before anything is written, so
no response line is emitted; the failure is an `Exception`, so the
daemon loop continues with the next line. -/
theorem missing_type_no_response (engine : Engine) (data : List (String × JVal))
    (h : jvalTruthy ((jsonGet data "type").getD JVal.null) = false) :
    process_line engine data = Except.error PyError.assertionError
    ∧ emittedLines (process_line engine data) = []
    ∧ (∀ (step : String → LineOutcome) (lines : List String) (n : Nat) (l l' : String),
        (runDaemon step lines)[n]? = some (l, LineOutcome.exc PyError.assertionError) →
        lines[n + 1]? = some l' → l' ≠ "" →
        (runDaemon step lines)[n + 1]? = some (l', step l')) := by
  have hp : process_line engine data = Except.error PyError.assertionError := by
    simp [process_line, h]
  refine ⟨hp, by rw [hp]; rfl, ?_⟩
  intro step lines n l l' h1 h2 h3
  exact runDaemon_continue step lines n l l' PyError.assertionError h1 h2 h3

/-- Witness for C8 at a request carrying only a `uuid`. -/
theorem missing_type_no_response_witness :
    emittedLines (process_line c8engine c8data) = [] :=
  (missing_type_no_response c8engine c8data rfl).2.1

/-- Counterexample to C9: a pre-serialized string already ending in two
newlines is emitted unchanged, so the emitted line ends with two
trailing newlines, not exactly one. -/
theorem write_trailing_newline_counterexample :
    countTrailingNewlines (writeEmit (WData.str "x\n\n")) = 2
    ∧ countTrailingNewlines (writeEmit (WData.str "x\n\n")) ≠ 1 :=
  ⟨rfl, by decide⟩

/-- Claim C9 (amended): every emitted line ends with at least one
trailing newline; for a structured value (serialized to JSON, which
never ends in a newline) it ends with exactly one; a pre-serialized
string not ending in a newline gets exactly one appended; a
pre-serialized string already ending in newline(s) is emitted
unchanged. -/
theorem write_trailing_newline (d : WData) :
    1 ≤ countTrailingNewlines (writeEmit d)
    ∧ (∀ v, d = WData.obj v → countTrailingNewlines (writeEmit d) = 1)
    ∧ (∀ s, d = WData.str s → pyEndsWithNewline s = false →
        writeEmit d = s ++ "\n" ∧ countTrailingNewlines (writeEmit d) = 1)
    ∧ (∀ s, d = WData.str s → pyEndsWithNewline s = true → writeEmit d = s) := by
  refine ⟨?_, ?_, ?_, ?_⟩
  · unfold writeEmit
    cases hw : pyEndsWithNewline (writeData d)
    · rw [if_neg (by simp [hw])]
      exact le_of_eq (countTrailingNewlines_append_newline _ hw).symm
    · rw [if_pos (by simp [hw])]
      exact one_le_countTrailingNewlines _ hw
  · intro v hv
    subst hv
    unfold writeEmit
    have hw : pyEndsWithNewline (writeData (WData.obj v)) = false :=
      pyEndsWithNewline_dumpsJVal v
    rw [if_neg (by simp [hw])]
    exact countTrailingNewlines_append_newline _ hw
  · intro s hs hfalse
    subst hs
    unfold writeEmit
    rw [if_neg (by simp [show pyEndsWithNewline (writeData (WData.str s)) = false from hfalse])]
    exact ⟨rfl, countTrailingNewlines_append_newline _ hfalse⟩
  · intro s hs htrue
    subst hs
    unfold writeEmit
    rw [if_pos (by simp [show pyEndsWithNewline (writeData (WData.str s)) = true from htrue])]
    rfl

/-- Witness for C9: a string with no trailing newline gets exactly one
appended. -/
theorem write_trailing_newline_witness :
    writeEmit (WData.str "abc") = "abc" ++ "\n" :=
  ((write_trailing_newline (WData.str "abc")).2.2.1 "abc" rfl rfl).1

/-- Claim C10: a parameter of the active signature without a default
(after the `self`/`*` exclusions, its stripped code splits on `=` into a
single name) reaches the two-element unpacking as a one-element list,
the unpacking raises `ValueError` (not the caught `IndexError`), and
both the autocomplete and funcargs operations raise instead of
producing placeholder entries. -/
theorem unpack_valueError_propagates (cd : CallDef) (p nm toggle : String) (e : Engine)
    (hp : p ∈ cd.params)
    (hstar : (pyStrip p).data.any (fun c => c == '*') = false)
    (hself : ((pyStrip p) == "self") = false)
    (hsplit : (pySplit '=' (pyStrip p)).map pyStrip = [nm])
    (he : e.callSignature = some cd) :
    [nm] ∈ get_function_parameters (some cd)
    ∧ unpackParameter [nm] = Except.error PyError.valueError
    ∧ parametersForCompletion (some cd) = Except.error PyError.valueError
    ∧ get_autocomplete e = Except.error PyError.valueError
    ∧ get_funcargs toggle e = Except.error PyError.valueError := by
  have hmem : [nm] ∈ get_function_parameters (some cd) := by
    unfold get_function_parameters
    apply List.mem_filterMap.mpr
    refine ⟨p, hp, ?_⟩
    simp [hstar, hself, hsplit]
  have hex : ∃ q ∈ get_function_parameters (some cd),
      unpackParameter q = Except.error PyError.valueError := ⟨[nm], hmem, rfl⟩
  have hloop : parametersForCompletion (some cd) = Except.error PyError.valueError :=
    parametersForCompletionLoop_error _ hex
  refine ⟨hmem, rfl, hloop, ?_, ?_⟩
  · unfold get_autocomplete
    rw [he, hloop]
  · unfold get_funcargs completeCallAssigments
    rw [he]
    rw [completeCallAssigmentsLoop_error (toggle == "all") 0 _ hex]

/-- Witness for C10 at the signature `(a)`. -/
theorem unpack_valueError_propagates_witness :
    get_autocomplete c10engine = Except.error PyError.valueError :=
  (unpack_valueError_propagates c10cd "a" "a" "all" c10engine (by decide) rfl rfl rfl
    rfl).2.2.2.1
